import Mathlib

/-!
Crop-management: request/response lifecycle of the two client pages

Shallow embedding of the event handlers of

* `src/app/page.js` (component `Home`, the image flow), and
* `src/app/recommendation/page.js` (component `RecommendationPage`, the
  parameter flow).

React state is an explicit record; every `setX(v)` is a record update, applied
in program order.  The remote services, the object-URL store of the browser and
the JavaScript engine are explicit arguments: a handler takes the current state
and the answer of the outside world and returns the next state together with
the requests it issued.
-/

namespace CropManagement

/-! ## JavaScript values -/

/-- A JSON number literal, kept exactly: `mantissa / 10 ^ exponent`
(`0.87` is `⟨87, 2⟩`).  The handlers only store numbers, never compute on them. -/
structure JNum where
  mantissa : Int
  exponent : Nat
  deriving DecidableEq, Repr

/-- The JavaScript values a parsed response body and the `predictions` state
can hold. An object is the list of its own properties, first match wins. -/
inductive JSValue where
  | undefined
  | null
  | bool (b : Bool)
  | num (n : JNum)
  | str (s : String)
  | arr (items : List JSValue)
  | obj (fields : List (String × JSValue))
  deriving Repr

/-- A thrown value: either an instance of `Error` with its `message`, or any
other value. -/
inductive Thrown where
  | error (message : String)
  | other (value : JSValue)
  deriving Repr

/-- Own-property lookup in an object's property list; a missing property reads
as `undefined`. -/
def getOwn : List (String × JSValue) → String → JSValue
  | [], _ => JSValue.undefined
  | (k, v) :: rest, name => if k = name then v else getOwn rest name

/-- Reading `v.predictions`, `v.label` or `v.score` (property `name`, none of
them a built-in of any prototype): on `null` and `undefined` the engine throws
a `TypeError` whose message `typeErrorMessage` is the engine's; an object
yields its own property or `undefined`; every other value yields `undefined`. -/
def getProp (typeErrorMessage : String) (v : JSValue) (name : String) : Except Thrown JSValue :=
  match v with
  | JSValue.undefined => Except.error (Thrown.error typeErrorMessage)
  | JSValue.null => Except.error (Thrown.error typeErrorMessage)
  | JSValue.obj fields => Except.ok (getOwn fields name)
  | _ => Except.ok JSValue.undefined

/-! ## The image flow: `src/app/page.js` -/

/-- A `File` picked in the file input. -/
structure File where
  name : String
  type : String
  content : List Nat
  deriving DecidableEq, Repr

/-- An object URL. The browser hands out a fresh one on every
`URL.createObjectURL`; it is identified by its serial number. -/
abbrev ObjectURL := Nat

/-- The browser's object-URL store: how many URLs were created so far, and the
URLs created and not yet released, most recent first. Only
`URL.revokeObjectURL` releases one, and `src/app/page.js` never calls it. -/
structure URLStore where
  created : Nat
  live : List ObjectURL
  deriving DecidableEq, Repr

/-- `URL.createObjectURL(file)`: a fresh URL, live from now on. -/
def createObjectURL (store : URLStore) (_file : File) : ObjectURL × URLStore :=
  (store.created, { created := store.created + 1, live := store.created :: store.live })

/-- The request handed to `fetch`: URL, method and the entries of the
`FormData` body. -/
structure Request where
  url : String
  method : String
  body : List (String × File)
  deriving DecidableEq, Repr

/-- A `Response` as the handler reads it: `ok`, `status` and the result of
`response.json()` (the parsed body, or the value it rejects with). -/
structure Response where
  ok : Bool
  status : Nat
  json : Except Thrown JSValue

/-- How `await fetch(...)` ends: it rejects with a thrown value or resolves
with a response. -/
inductive FetchOutcome where
  | rejected (err : Thrown)
  | resolved (response : Response)

/-- The outside world of the image flow. -/
structure Network where
  fetch : Request → FetchOutcome
  typeErrorMessage : String

namespace Home

/-- The five `useState` cells of `Home` (lines 11-15). -/
structure State where
  file : Option File
  preview : Option ObjectURL
  loading : Bool
  error : Option String
  predictions : JSValue

/-- The initial values of the `useState` calls. -/
def init : State :=
  { file := none, preview := none, loading := false, error := none,
    predictions := JSValue.null }

/-- `handleFileChange` (lines 17-28). `files` is `e.target.files`;
`files?.[0]` is its first element, if any. -/
def handleFileChange (store : URLStore) (s : State) (files : List File) : URLStore × State :=
  match files.head? with
  | some selectedFile =>
    let s1 := { s with file := some selectedFile }
    let s2 := { s1 with error := none }
    let s3 := { s2 with predictions := JSValue.null }
    let (previewUrl, store1) := createObjectURL store selectedFile
    (store1, { s3 with preview := some previewUrl })
  | none => (store, s)

/-- The message of the `catch` clause (line 58):
`err instanceof Error ? err.message : "Failed to get predictions"`. -/
def catchMessage : Thrown → String
  | Thrown.error message => message
  | Thrown.other _ => "Failed to get predictions"

/-- The body of the `try` block (lines 43-56) after `fetch` has been called:
the state it reaches, or the value it throws. -/
def tryBody (net : Network) (s : State) (outcome : FetchOutcome) : Except Thrown State :=
  match outcome with
  | FetchOutcome.rejected err => Except.error err
  | FetchOutcome.resolved response =>
    if !response.ok then
      Except.error (Thrown.error ("Server responded with status: " ++ toString response.status))
    else
      match response.json with
      | Except.error err => Except.error err
      | Except.ok data =>
        match getProp net.typeErrorMessage data "predictions" with
        | Except.error err => Except.error err
        | Except.ok predictions => Except.ok { s with predictions := predictions }

/-- The call of lines 43-49: a `POST` to the prediction endpoint whose
`FormData` body holds the file under `file`. -/
def predictRequest (file : File) : Request :=
  { url := "http://127.0.0.1:8000/predict", method := "POST", body := [("file", file)] }

/-- `handleSubmit` (lines 30-62), run until the returned promise has resolved.
The result is the final state and the list of requests passed to `fetch`. -/
def handleSubmit (net : Network) (s : State) : State × List Request :=
  match s.file with
  | none => ({ s with error := some "Please select an image file" }, [])
  | some file =>
    let s1 := { s with loading := true }
    let s2 := { s1 with error := none }
    let s3 := { s2 with predictions := JSValue.null }
    let request := predictRequest file
    let s4 :=
      match tryBody net s3 (net.fetch request) with
      | Except.ok s => s
      | Except.error err => { s3 with error := some (catchMessage err) }
    ({ s4 with loading := false }, [request])

/-- `handleClear` (lines 64-69). -/
def handleClear (s : State) : State :=
  let s1 := { s with file := none }
  let s2 := { s1 with preview := none }
  let s3 := { s2 with predictions := JSValue.null }
  { s3 with error := none }

/-- JavaScript truthiness, as tested by `predictions && (...)` (line 135). -/
def truthy : JSValue → Bool
  | JSValue.undefined => false
  | JSValue.null => false
  | JSValue.bool b => b
  | JSValue.num n => n.mantissa != 0
  | JSValue.str s => s != ""
  | JSValue.arr _ => true
  | JSValue.obj _ => true

/-- The rows rendered from `predictions` (lines 135-155): nothing for a falsy
value; for an array, the `label` and `score` read from each element in order;
for any other value `predictions.map` is not a function and the engine throws
a `TypeError`. -/
def rows (typeErrorMessage : String) (predictions : JSValue) :
    Except Thrown (List (JSValue × JSValue)) :=
  if truthy predictions then
    match predictions with
    | JSValue.arr items =>
      items.mapM (fun prediction =>
        match getProp typeErrorMessage prediction "label",
              getProp typeErrorMessage prediction "score" with
        | Except.ok label, Except.ok score => Except.ok (label, score)
        | Except.error err, _ => Except.error err
        | _, Except.error err => Except.error err)
    | _ => Except.error (Thrown.error typeErrorMessage)
  else Except.ok []

/-- The element of a `predictions` array as lines 141 and 150 read it: an
object with a `label` and a `score`. -/
def predictionObject (p : String × JNum) : JSValue :=
  JSValue.obj [("label", JSValue.str p.1), ("score", JSValue.num p.2)]

/-- A user action on the image form apart from submit. -/
inductive Op where
  | selectFile (files : List File)
  | clear

/-- The page together with the browser's object-URL store. -/
structure World where
  store : URLStore
  ui : State

/-- The world when the page is first rendered: no object URL exists. -/
def World.init : World :=
  { store := { created := 0, live := [] }, ui := Home.init }

/-- One user action. -/
def step (w : World) : Op → World
  | Op.selectFile files =>
    let (store1, ui1) := handleFileChange w.store w.ui files
    { store := store1, ui := ui1 }
  | Op.clear => { w with ui := handleClear w.ui }

/-- A sequence of user actions, left to right. -/
def run (w : World) (ops : List Op) : World :=
  ops.foldl step w

/-- The number of `selectFile` actions that carry a file. -/
def selections : List Op → Nat
  | [] => 0
  | Op.selectFile (_ :: _) :: rest => selections rest + 1
  | _ :: rest => selections rest

end Home

/-! ## The parameter flow: `src/app/recommendation/page.js` -/

/-- What `chat.sendMessage` is called with: the model selected by
`getGenerativeModel` (lines 26-36), the chat opened by `startChat`
(lines 38-41) and the prompt. -/
structure GeminiRequest where
  model : String
  systemInstruction : String
  modelConfig : List (String × JSValue)
  history : List String
  chatConfig : List (String × JSValue)
  message : String

/-- The generative-text service: `await chat.sendMessage(message)` rejects with
a thrown value or resolves with a result, whose `response.text()` in turn
returns the text or throws. -/
structure GenAI where
  sendMessage : GeminiRequest → Except Thrown (Except Thrown String)

/-- A toast raised through `react-toastify`. -/
inductive Toast where
  | info (text : String)
  | success (text : String)
  | error (text : String)
  deriving DecidableEq, Repr

namespace RecommendationPage

/-- The `inputs` object: its own properties, in order. -/
abbrev Inputs := List (String × String)

/-- The three `useState` cells of `RecommendationPage` (lines 9-19). -/
structure State where
  inputs : Inputs
  response : String
  isLoading : Bool
  deriving DecidableEq, Repr

/-- The object literal of lines 9-17 and 88-96: all seven fields empty. -/
def emptyInputs : Inputs :=
  [("N", ""), ("P", ""), ("K", ""), ("temperature", ""), ("humidity", ""),
   ("ph", ""), ("rainfall", "")]

/-- The initial values of the `useState` calls. -/
def init : State :=
  { inputs := emptyInputs, response := "", isLoading := false }

/-- The names of the seven form fields. -/
def fieldNames : List String :=
  ["N", "P", "K", "temperature", "humidity", "ph", "rainfall"]

/-- Reading `inputs[name]`: the own property, if there is one. -/
def get : Inputs → String → Option String
  | [], _ => none
  | (k, v) :: rest, name => if k = name then some v else get rest name

/-- The object `{ ...prev, [name]: value }` (lines 81-84): the properties of
`prev` are copied, and `name` is overwritten in place or added at the end. -/
def set : Inputs → String → String → Inputs
  | [], name, value => [(name, value)]
  | (k, v) :: rest, name, value =>
    if k = name then (k, value) :: rest else (k, v) :: set rest name value

/-- A property inside a template literal: a missing one prints `undefined`. -/
def interpolate (inputs : Inputs) (name : String) : String :=
  (get inputs name).getD "undefined"

/-- The prompt of lines 57-64. -/
def message (inputs : Inputs) : String :=
  "Provide crop recommendations based on these values:\n" ++
  "      - Nitrogen (N): " ++ interpolate inputs "N" ++ " ppm\n" ++
  "      - Phosphorus (P): " ++ interpolate inputs "P" ++ " ppm\n" ++
  "      - Potassium (K): " ++ interpolate inputs "K" ++ " ppm\n" ++
  "      - Temperature: " ++ interpolate inputs "temperature" ++ "°C\n" ++
  "      - Humidity: " ++ interpolate inputs "humidity" ++ "%\n" ++
  "      - pH: " ++ interpolate inputs "ph" ++ "\n" ++
  "      - Rainfall: " ++ interpolate inputs "rainfall" ++ " mm"

/-- The call assembled by lines 26-43: the model and its generation settings,
a chat without history and its own settings, and the prompt. -/
def geminiRequest (message : String) : GeminiRequest :=
  { model := "gemini-1.5-flash",
    systemInstruction := "Provide crop recommendations based on the given environmental and soil parameters. Suggest what crop should be grown on the soil",
    modelConfig :=
      [("temperature", JSValue.num ⟨1, 0⟩), ("topP", JSValue.num ⟨95, 2⟩),
       ("topK", JSValue.num ⟨40, 0⟩), ("maxOutputTokens", JSValue.num ⟨8192, 0⟩),
       ("responseMimeType", JSValue.str "text/plain")],
    history := [],
    chatConfig := [("temperature", JSValue.num ⟨9, 1⟩)],
    message := message }

/-- `sendToGemini` (lines 24-49): the text, or the error it rethrows, together
with the requests sent. `getGenerativeModel` and `startChat` only build the
request; `chat.sendMessage` sends it. -/
def sendToGemini (api : GenAI) (message : String) : Except Thrown String × List GeminiRequest :=
  let request := geminiRequest message
  let attempt : Except Thrown String :=
    match api.sendMessage request with
    | Except.error err => Except.error err
    | Except.ok result => result
  match attempt with
  | Except.ok text => (Except.ok text, [request])
  | Except.error error => (Except.error error, [request])

/-- What a submit leaves behind besides the state. -/
structure Effects where
  requests : List GeminiRequest
  toasts : List Toast

/-- `handleSubmit` (lines 51-77), run until the returned promise has resolved. -/
def handleSubmit (api : GenAI) (s : State) : State × Effects :=
  let s1 := { s with isLoading := true }
  let s2 := { s1 with response := "" }
  let started := [Toast.info "Generating recommendations..."]
  let (outcome, requests) := sendToGemini api (message s.inputs)
  let (s3, toasts) :=
    match outcome with
    | Except.ok result =>
      ({ s2 with response := result },
        started ++ [Toast.success "Recommendations generated successfully!"])
    | Except.error _ =>
      ({ s2 with response := "An error occurred while fetching recommendations." },
        started ++ [Toast.error "Failed to generate recommendations"])
  ({ s3 with isLoading := false }, { requests := requests, toasts := toasts })

/-- `handleInputChange` (lines 79-85); `name` and `value` are those of
`e.target`. -/
def handleInputChange (s : State) (name value : String) : State :=
  { s with inputs := set s.inputs name value }

/-- `handleClear` (lines 87-98). -/
def handleClear (s : State) : State :=
  let s1 := { s with inputs := emptyInputs }
  { s1 with response := "" }

end RecommendationPage

/-! ## Sample inputs -/

/-- A picked image. -/
def leaf : File :=
  { name := "leaf.jpg", type := "image/jpeg", content := [255, 216, 255] }

/-- The image page after `leaf` was picked on a fresh page. -/
def Home.selected : Home.State :=
  (Home.handleFileChange { created := 0, live := [] } Home.init [leaf]).2

/-- A network whose `fetch` resolves with the given response. -/
def netResolving (response : Response) : Network :=
  { fetch := fun _ => FetchOutcome.resolved response,
    typeErrorMessage := "data is null" }

/-- A network whose `fetch` rejects with the given value. -/
def netRejecting (err : Thrown) : Network :=
  { fetch := fun _ => FetchOutcome.rejected err,
    typeErrorMessage := "data is null" }

/-- A response with a non-success status and an HTML body. -/
def serverError (status : Nat) : Response :=
  { ok := false, status := status,
    json := Except.error (Thrown.error "Unexpected token < in JSON at position 0") }

/-- A `200` response whose `json()` ends as given. -/
def okResponse (json : Except Thrown JSValue) : Response :=
  { ok := true, status := 200, json := json }

/-- The two predictions of the sample classification response. -/
def blightPredictions : List (String × JNum) :=
  [("Leaf Blight", ⟨87, 2⟩), ("Healthy", ⟨13, 2⟩)]

/-- The properties of the sample classification response. -/
def blightFields : List (String × JSValue) :=
  [("predictions", JSValue.arr (blightPredictions.map Home.predictionObject))]

/-- A generative-text service that answers with the given text. -/
def genResolving (text : String) : GenAI :=
  { sendMessage := fun _ => Except.ok (Except.ok text) }

/-- A generative-text service whose `sendMessage` rejects with the given value. -/
def genRejecting (err : Thrown) : GenAI :=
  { sendMessage := fun _ => Except.error err }

/-- A generative-text service whose result throws when its text is read. -/
def genBlocked (err : Thrown) : GenAI :=
  { sendMessage := fun _ => Except.ok (Except.error err) }

/-! # Theorems -/

/-! ## Image flow: submit -/

/-- Claim C1. With no file selected, `handleSubmit` passes nothing to `fetch`,
sets `error` to "Please select an image file" and leaves `loading`, `preview`,
`predictions` (and `file`) as they were. -/
theorem Home.submit_without_file (net : Network) (s : Home.State) (h : s.file = none) :
    (Home.handleSubmit net s).2 = [] ∧
    (Home.handleSubmit net s).1.error = some "Please select an image file" ∧
    (Home.handleSubmit net s).1.loading = s.loading ∧
    (Home.handleSubmit net s).1.preview = s.preview ∧
    (Home.handleSubmit net s).1.predictions = s.predictions ∧
    (Home.handleSubmit net s).1.file = none := by
  simp [Home.handleSubmit, h]

/-- Witness of `Home.submit_without_file` on the freshly rendered page. -/
theorem Home.submit_without_file_witness :
    Home.init.file = none ∧
    (Home.handleSubmit (netRejecting (Thrown.error "Failed to fetch")) Home.init).2 = [] ∧
    (Home.handleSubmit (netRejecting (Thrown.error "Failed to fetch")) Home.init).1.error
      = some "Please select an image file" ∧
    (Home.handleSubmit (netRejecting (Thrown.error "Failed to fetch")) Home.init).1.loading
      = false :=
  have h := Home.submit_without_file (netRejecting (Thrown.error "Failed to fetch")) Home.init rfl
  ⟨rfl, h.1, h.2.1, h.2.2.1⟩

/-- Claim C3. With a file selected and a response that is not `ok`, with status
`s`, `handleSubmit` ends with `error` equal to "Server responded with status: "
followed by the decimal digits of `s` (so the digits of `s` occur in it), with
`predictions` null and `loading` false. -/
theorem Home.submit_server_error (net : Network) (s : Home.State) (file : File)
    (response : Response) (hfile : s.file = some file)
    (hfetch : net.fetch (Home.predictRequest file) = FetchOutcome.resolved response)
    (hok : response.ok = false) :
    (Home.handleSubmit net s).1.error
      = some ("Server responded with status: " ++ Nat.repr response.status) ∧
    (∃ before after, (Home.handleSubmit net s).1.error
      = some (before ++ Nat.repr response.status ++ after)) ∧
    (Home.handleSubmit net s).1.predictions = JSValue.null ∧
    (Home.handleSubmit net s).1.loading = false := by
  have herr : (Home.handleSubmit net s).1.error
      = some ("Server responded with status: " ++ Nat.repr response.status) := by
    simp [Home.handleSubmit, Home.tryBody, Home.catchMessage, hfile, hfetch, hok]
    rfl
  refine ⟨herr, ⟨"Server responded with status: ", "", ?_⟩, ?_, ?_⟩
  · rw [herr, String.append_empty]
  · simp [Home.handleSubmit, Home.tryBody, hfile, hfetch, hok]
  · simp [Home.handleSubmit, hfile]

/-- Witness of `Home.submit_server_error`: an HTTP 500 response yields an error
message that ends in "500". -/
theorem Home.submit_server_error_witness :
    Home.selected.file = some leaf ∧
    (serverError 500).ok = false ∧
    (Home.handleSubmit (netResolving (serverError 500)) Home.selected).1.error
      = some "Server responded with status: 500" ∧
    (Home.handleSubmit (netResolving (serverError 500)) Home.selected).1.predictions
      = JSValue.null ∧
    (Home.handleSubmit (netResolving (serverError 500)) Home.selected).1.loading = false :=
  have h := Home.submit_server_error (netResolving (serverError 500)) Home.selected leaf
    (serverError 500) rfl rfl rfl
  ⟨rfl, rfl, h.1.trans (by decide), h.2.2.1, h.2.2.2⟩

/-- Reading the rendered rows back from an array of prediction objects gives
the labels and scores in the same order. -/
theorem Home.rows_predictionObjects (msg : String) (ps : List (String × JNum)) :
    Home.rows msg (JSValue.arr (ps.map Home.predictionObject))
      = Except.ok (ps.map (fun p => (JSValue.str p.1, JSValue.num p.2))) := by
  simp only [Home.rows, Home.truthy, if_true]
  induction ps with
  | nil => rfl
  | cons p rest ih =>
    simp only [List.map_cons, List.mapM_cons, ih]
    simp [Home.predictionObject, getProp, getOwn, bind, Except.bind, pure, Except.pure]

/-- Claim C4. With a file selected and a success response whose body is an
object with a `predictions` array of label/score objects, `handleSubmit` ends
with `loading` false, `error` null and `predictions` equal to that array; the
rows rendered from it are the labels and scores of the response, in the same
number and order. -/
theorem Home.submit_success (net : Network) (s : Home.State) (file : File)
    (response : Response) (fields : List (String × JSValue)) (ps : List (String × JNum))
    (hfile : s.file = some file)
    (hfetch : net.fetch (Home.predictRequest file) = FetchOutcome.resolved response)
    (hok : response.ok = true)
    (hjson : response.json = Except.ok (JSValue.obj fields))
    (hpred : getOwn fields "predictions" = JSValue.arr (ps.map Home.predictionObject)) :
    (Home.handleSubmit net s).1.loading = false ∧
    (Home.handleSubmit net s).1.error = none ∧
    (Home.handleSubmit net s).1.predictions = JSValue.arr (ps.map Home.predictionObject) ∧
    Home.rows net.typeErrorMessage (Home.handleSubmit net s).1.predictions
      = Except.ok (ps.map (fun p => (JSValue.str p.1, JSValue.num p.2))) := by
  have hp : (Home.handleSubmit net s).1.predictions
      = JSValue.arr (ps.map Home.predictionObject) := by
    simp [Home.handleSubmit, Home.tryBody, getProp, hfile, hfetch, hok, hjson, hpred]
  refine ⟨?_, ?_, hp, ?_⟩
  · simp [Home.handleSubmit, hfile]
  · simp [Home.handleSubmit, Home.tryBody, getProp, hfile, hfetch, hok, hjson]
  · rw [hp]
    exact Home.rows_predictionObjects net.typeErrorMessage ps

/-- Witness of `Home.submit_success` on the response with "Leaf Blight" 0.87
and "Healthy" 0.13. -/
theorem Home.submit_success_witness :
    Home.selected.file = some leaf ∧
    (Home.handleSubmit (netResolving (okResponse (Except.ok (JSValue.obj blightFields))))
        Home.selected).1.error = none ∧
    Home.rows "data is null"
        (Home.handleSubmit (netResolving (okResponse (Except.ok (JSValue.obj blightFields))))
          Home.selected).1.predictions
      = Except.ok [(JSValue.str "Leaf Blight", JSValue.num ⟨87, 2⟩),
                   (JSValue.str "Healthy", JSValue.num ⟨13, 2⟩)] :=
  have h := Home.submit_success
    (netResolving (okResponse (Except.ok (JSValue.obj blightFields)))) Home.selected leaf
    (okResponse (Except.ok (JSValue.obj blightFields))) blightFields blightPredictions
    rfl rfl rfl rfl rfl
  ⟨rfl, h.2.1, h.2.2.2⟩

/-- Claim C5, counterexample. A success response whose body is the JSON object
without any property: `handleSubmit` ends with `error` null (no parse error is
reported) and `predictions` set to `undefined`. -/
theorem Home.submit_shape_counterexample :
    Home.selected.file = some leaf ∧
    (Home.handleSubmit (netResolving (okResponse (Except.ok (JSValue.obj []))))
      Home.selected).1.error = none ∧
    (Home.handleSubmit (netResolving (okResponse (Except.ok (JSValue.obj []))))
      Home.selected).1.predictions = JSValue.undefined ∧
    (Home.handleSubmit (netResolving (okResponse (Except.ok (JSValue.obj []))))
      Home.selected).1.loading = false :=
  ⟨rfl, rfl, rfl, rfl⟩

/-- Claim C5, amended. With a file selected and a success response:
when `response.json()` rejects (the body is not JSON), `handleSubmit` ends with
`error` set to the message of the rejection (the fallback text when it is not
an `Error`) and `predictions` null; when the body parses to `null`, `error` is
the engine's `TypeError` message and `predictions` null; when the body parses
to an object, its shape is not checked: `error` is null and `predictions` is
the object's `predictions` property, `undefined` when there is none. In all
three cases `loading` ends false. -/
theorem Home.submit_success_body (net : Network) (s : Home.State) (file : File)
    (response : Response) (hfile : s.file = some file)
    (hfetch : net.fetch (Home.predictRequest file) = FetchOutcome.resolved response)
    (hok : response.ok = true) :
    (∀ err, response.json = Except.error err →
      (Home.handleSubmit net s).1.error = some (Home.catchMessage err) ∧
      (Home.handleSubmit net s).1.predictions = JSValue.null ∧
      (Home.handleSubmit net s).1.loading = false) ∧
    (response.json = Except.ok JSValue.null →
      (Home.handleSubmit net s).1.error = some net.typeErrorMessage ∧
      (Home.handleSubmit net s).1.predictions = JSValue.null ∧
      (Home.handleSubmit net s).1.loading = false) ∧
    (∀ fields, response.json = Except.ok (JSValue.obj fields) →
      (Home.handleSubmit net s).1.error = none ∧
      (Home.handleSubmit net s).1.predictions = getOwn fields "predictions" ∧
      (Home.handleSubmit net s).1.loading = false) := by
  refine ⟨fun err hjson => ?_, fun hjson => ?_, fun fields hjson => ?_⟩ <;>
    simp [Home.handleSubmit, Home.tryBody, Home.catchMessage, getProp, hfile, hfetch, hok, hjson]

/-- Witness of `Home.submit_success_body`: a body that is not JSON surfaces the
parser's message and stores no predictions. -/
theorem Home.submit_success_body_witness :
    Home.selected.file = some leaf ∧
    (Home.handleSubmit
      (netResolving (okResponse (Except.error (Thrown.error "Unexpected end of JSON input"))))
      Home.selected).1.error = some "Unexpected end of JSON input" ∧
    (Home.handleSubmit
      (netResolving (okResponse (Except.error (Thrown.error "Unexpected end of JSON input"))))
      Home.selected).1.predictions = JSValue.null ∧
    (Home.handleSubmit
      (netResolving (okResponse (Except.error (Thrown.error "Unexpected end of JSON input"))))
      Home.selected).1.loading = false :=
  ⟨rfl, (Home.submit_success_body
    (netResolving (okResponse (Except.error (Thrown.error "Unexpected end of JSON input"))))
    Home.selected leaf
    (okResponse (Except.error (Thrown.error "Unexpected end of JSON input")))
    rfl rfl rfl).1 (Thrown.error "Unexpected end of JSON input") rfl⟩

/-! ## Image flow: clear and file selection -/

/-- Claim C8. Whatever the state, `handleClear` leaves `file`, `preview`,
`error` and `predictions` null and does not touch `loading`. -/
theorem Home.clear_resets (s : Home.State) :
    (Home.handleClear s).file = none ∧
    (Home.handleClear s).preview = none ∧
    (Home.handleClear s).error = none ∧
    (Home.handleClear s).predictions = JSValue.null ∧
    (Home.handleClear s).loading = s.loading :=
  ⟨rfl, rfl, rfl, rfl, rfl⟩

/-- Claim C7, counterexample. Pick a file, clear, pick a file again: after the
clear the first object URL is still live, and after the second pick two object
URLs are live, only the newer one being held in `preview`. -/
theorem Home.preview_leak_counterexample :
    (Home.run Home.World.init [Home.Op.selectFile [leaf], Home.Op.clear]).store.live = [0] ∧
    (Home.run Home.World.init [Home.Op.selectFile [leaf], Home.Op.clear]).ui.preview = none ∧
    (Home.run Home.World.init
      [Home.Op.selectFile [leaf], Home.Op.clear, Home.Op.selectFile [leaf]]).store.live
        = [1, 0] ∧
    (Home.run Home.World.init
      [Home.Op.selectFile [leaf], Home.Op.clear, Home.Op.selectFile [leaf]]).ui.preview
        = some 1 :=
  ⟨rfl, rfl, rfl, rfl⟩

/-- A sequence of actions followed by one more action. -/
theorem Home.run_snoc (w : Home.World) (ops : List Home.Op) (op : Home.Op) :
    Home.run w (ops ++ [op]) = Home.step (Home.run w ops) op := by
  simp [Home.run, List.foldl_append]

/-- Counting the picks of a sequence extended by one action. -/
theorem Home.selections_snoc (ops : List Home.Op) (op : Home.Op) :
    Home.selections (ops ++ [op]) = Home.selections ops + Home.selections [op] := by
  induction ops with
  | nil => simp [Home.selections]
  | cons o rest ih =>
    cases o with
    | clear => simpa [Home.selections] using ih
    | selectFile files =>
      cases files with
      | nil => simpa [Home.selections] using ih
      | cons f fs =>
        have h1 : Home.selections (Home.Op.selectFile (f :: fs) :: (rest ++ [op]))
            = Home.selections (rest ++ [op]) + 1 := rfl
        have h2 : Home.selections (Home.Op.selectFile (f :: fs) :: rest)
            = Home.selections rest + 1 := rfl
        rw [List.cons_append, h1, h2, ih]
        omega

/-- The object-URL store after a sequence of actions from the initial page:
as many URLs were created as files were picked, every one of them is still
live, and `preview` holds nothing or the most recent one. -/
theorem Home.run_store (ops : List Home.Op) :
    (Home.run Home.World.init ops).store.created = Home.selections ops ∧
    (Home.run Home.World.init ops).store.live.length = Home.selections ops ∧
    ((Home.run Home.World.init ops).ui.preview = none ∨
      (Home.run Home.World.init ops).ui.preview
        = (Home.run Home.World.init ops).store.live.head?) := by
  induction ops using List.reverseRecOn with
  | nil => exact ⟨rfl, rfl, Or.inl rfl⟩
  | append_singleton ops op ih =>
    obtain ⟨hc, hl, hp⟩ := ih
    rw [Home.run_snoc, Home.selections_snoc]
    cases op with
    | clear => exact ⟨hc, hl, Or.inl rfl⟩
    | selectFile files =>
      cases files with
      | nil => exact ⟨hc, hl, hp⟩
      | cons f fs =>
        refine ⟨?_, ?_, Or.inr rfl⟩
        · simp [Home.step, Home.handleFileChange, createObjectURL, Home.selections, hc]
        · simp [Home.step, Home.handleFileChange, createObjectURL, Home.selections, hl]

/-- Claim C7, amended. After every sequence `ops` of `selectFile` and `clear`
actions from the initial page: the number of live object URLs equals the number
of `selectFile` actions that carried a file, and `preview` holds nothing or the
most recently created URL. A further `selectFile` with a file creates one new
URL, stores it in `preview` in place of the one held before and keeps every
earlier URL live; a further `clear` empties `preview` and releases nothing; a
further `selectFile` without a file changes neither. -/
theorem Home.preview_resources (ops : List Home.Op) (file : File) (rest : List File) :
    (Home.run Home.World.init ops).store.live.length = Home.selections ops ∧
    ((Home.run Home.World.init ops).ui.preview = none ∨
      (Home.run Home.World.init ops).ui.preview
        = (Home.run Home.World.init ops).store.live.head?) ∧
    (Home.run Home.World.init (ops ++ [Home.Op.selectFile (file :: rest)])).ui.preview
      = some (Home.selections ops) ∧
    (Home.run Home.World.init (ops ++ [Home.Op.selectFile (file :: rest)])).store.live
      = Home.selections ops :: (Home.run Home.World.init ops).store.live ∧
    (Home.run Home.World.init (ops ++ [Home.Op.clear])).ui.preview = none ∧
    (Home.run Home.World.init (ops ++ [Home.Op.clear])).store.live
      = (Home.run Home.World.init ops).store.live ∧
    (Home.run Home.World.init (ops ++ [Home.Op.selectFile []])).ui.preview
      = (Home.run Home.World.init ops).ui.preview ∧
    (Home.run Home.World.init (ops ++ [Home.Op.selectFile []])).store.live
      = (Home.run Home.World.init ops).store.live := by
  obtain ⟨hc, hl, hp⟩ := Home.run_store ops
  refine ⟨hl, hp, ?_, ?_, ?_, ?_, ?_, ?_⟩
  · rw [Home.run_snoc]
    simp [Home.step, Home.handleFileChange, createObjectURL, hc]
  · rw [Home.run_snoc]
    simp [Home.step, Home.handleFileChange, createObjectURL, hc]
  · rw [Home.run_snoc]; rfl
  · rw [Home.run_snoc]; rfl
  · rw [Home.run_snoc]; rfl
  · rw [Home.run_snoc]; rfl

/-! ## Parameter flow -/

/-- The state `handleSubmit` ends in is fixed by what `sendToGemini` gives. -/
theorem RecommendationPage.handleSubmit_state (api : GenAI) (s : RecommendationPage.State) :
    (RecommendationPage.handleSubmit api s).1 =
      { inputs := s.inputs,
        response :=
          match (RecommendationPage.sendToGemini api (RecommendationPage.message s.inputs)).1 with
          | Except.ok result => result
          | Except.error _ => "An error occurred while fetching recommendations.",
        isLoading := false } := by
  unfold RecommendationPage.handleSubmit
  cases h : (RecommendationPage.sendToGemini api (RecommendationPage.message s.inputs)) with
  | mk outcome requests =>
    cases outcome <;> rfl

/-- `sendToGemini` calls `sendMessage` exactly once, with the prompt it was
given. -/
theorem RecommendationPage.sendToGemini_requests (api : GenAI) (message : String) :
    (RecommendationPage.sendToGemini api message).2
      = [RecommendationPage.geminiRequest message] := by
  simp only [RecommendationPage.sendToGemini]
  split <;> rfl

/-- What `sendToGemini` gives is fixed by how `chat.sendMessage` ends: the text
read from a resolved result, or the value thrown by the rejected call or by
reading the text. -/
theorem RecommendationPage.sendToGemini_outcome (api : GenAI) (message : String) :
    (RecommendationPage.sendToGemini api message).1 =
      match api.sendMessage (RecommendationPage.geminiRequest message) with
      | Except.error err => Except.error err
      | Except.ok result => result := by
  simp only [RecommendationPage.sendToGemini]
  split <;> simp_all

/-- Claim C6. In the parameter flow, from every state `s`: when the
generative-text call (`chat.sendMessage` on the request built from the prompt)
resolves and its text reads as `t`, `handleSubmit` ends with `response` equal
to `t` and `isLoading` false; when the call rejects with any `e`, or resolves
with a result whose text throws any `e`, `handleSubmit` ends with `response`
equal to "An error occurred while fetching recommendations." and `isLoading`
false. The final state is the same for every `e`: it is `s.inputs`, the fixed
text and `false`. -/
theorem RecommendationPage.submit_outcome (api : GenAI) (s : RecommendationPage.State) :
    (∀ t, api.sendMessage
          (RecommendationPage.geminiRequest (RecommendationPage.message s.inputs))
        = Except.ok (Except.ok t) →
      (RecommendationPage.handleSubmit api s).1
        = { inputs := s.inputs, response := t, isLoading := false }) ∧
    (∀ e, api.sendMessage
          (RecommendationPage.geminiRequest (RecommendationPage.message s.inputs))
        = Except.error e →
      (RecommendationPage.handleSubmit api s).1
        = { inputs := s.inputs,
            response := "An error occurred while fetching recommendations.",
            isLoading := false }) ∧
    (∀ e, api.sendMessage
          (RecommendationPage.geminiRequest (RecommendationPage.message s.inputs))
        = Except.ok (Except.error e) →
      (RecommendationPage.handleSubmit api s).1
        = { inputs := s.inputs,
            response := "An error occurred while fetching recommendations.",
            isLoading := false }) := by
  refine ⟨fun t h => ?_, fun e h => ?_, fun e h => ?_⟩ <;>
    rw [RecommendationPage.handleSubmit_state, RecommendationPage.sendToGemini_outcome, h]

/-- Witness of `RecommendationPage.submit_outcome`: the answer "Grow rice." is
stored; a rejected call and a result whose text cannot be read both store the
fixed message. -/
theorem RecommendationPage.submit_outcome_witness :
    (RecommendationPage.handleSubmit (genResolving "Grow rice.") RecommendationPage.init).1
      = { inputs := RecommendationPage.emptyInputs, response := "Grow rice.",
          isLoading := false } ∧
    (RecommendationPage.handleSubmit (genRejecting (Thrown.error "API key not valid"))
        RecommendationPage.init).1
      = { inputs := RecommendationPage.emptyInputs,
          response := "An error occurred while fetching recommendations.",
          isLoading := false } ∧
    (RecommendationPage.handleSubmit (genBlocked (Thrown.error "Response was blocked"))
        RecommendationPage.init).1
      = { inputs := RecommendationPage.emptyInputs,
          response := "An error occurred while fetching recommendations.",
          isLoading := false } :=
  ⟨(RecommendationPage.submit_outcome (genResolving "Grow rice.") RecommendationPage.init).1
      "Grow rice." rfl,
   (RecommendationPage.submit_outcome (genRejecting (Thrown.error "API key not valid"))
      RecommendationPage.init).2.1 (Thrown.error "API key not valid") rfl,
   (RecommendationPage.submit_outcome (genBlocked (Thrown.error "Response was blocked"))
      RecommendationPage.init).2.2 (Thrown.error "Response was blocked") rfl⟩

/-- Claim C2. Whatever the remote call does (any `fetch` outcome, any
`sendMessage` outcome), once `handleSubmit` has resolved the loading flag is
false and exactly one request was issued: in the image flow when a file is
selected, in the parameter flow from every state. -/
theorem submit_finalizes (net : Network) (s : Home.State) (file : File)
    (hfile : s.file = some file) (api : GenAI) (p : RecommendationPage.State) :
    (Home.handleSubmit net s).1.loading = false ∧
    (Home.handleSubmit net s).2 = [Home.predictRequest file] ∧
    (RecommendationPage.handleSubmit api p).1.isLoading = false ∧
    (RecommendationPage.handleSubmit api p).2.requests
      = [RecommendationPage.geminiRequest (RecommendationPage.message p.inputs)] := by
  refine ⟨?_, ?_, ?_, ?_⟩
  · simp [Home.handleSubmit, hfile]
  · simp [Home.handleSubmit, hfile]
  · rw [RecommendationPage.handleSubmit_state]
  · have h := RecommendationPage.sendToGemini_requests api (RecommendationPage.message p.inputs)
    unfold RecommendationPage.handleSubmit
    cases hs : RecommendationPage.sendToGemini api (RecommendationPage.message p.inputs) with
    | mk outcome requests =>
      rw [hs] at h
      cases outcome <;> exact h

/-- Witness of `submit_finalizes`: a transport failure in the image flow and a
rejected call in the parameter flow both end with the loading flag false after
one request. -/
theorem submit_finalizes_witness :
    Home.selected.file = some leaf ∧
    (Home.handleSubmit (netRejecting (Thrown.error "Failed to fetch")) Home.selected).1.loading
      = false ∧
    (Home.handleSubmit (netRejecting (Thrown.error "Failed to fetch")) Home.selected).2.length
      = 1 ∧
    (RecommendationPage.handleSubmit (genBlocked (Thrown.error "Response was blocked"))
      RecommendationPage.init).1.isLoading = false ∧
    (RecommendationPage.handleSubmit (genBlocked (Thrown.error "Response was blocked"))
      RecommendationPage.init).2.requests.length = 1 :=
  have h := submit_finalizes (netRejecting (Thrown.error "Failed to fetch")) Home.selected leaf
    rfl (genBlocked (Thrown.error "Response was blocked")) RecommendationPage.init
  ⟨rfl, h.1, by rw [h.2.1]; rfl, h.2.2.1, by rw [h.2.2.2]; rfl⟩

/-- Claim C9, counterexample. In the parameter flow a failed submit leaves the
fixed failure text in `response`, and editing field `N` afterwards leaves that
text in place. -/
theorem RecommendationPage.edit_keeps_response_counterexample :
    (RecommendationPage.handleSubmit (genRejecting (Thrown.error "API key not valid"))
      RecommendationPage.init).1.response
        = "An error occurred while fetching recommendations." ∧
    (RecommendationPage.handleInputChange
      (RecommendationPage.handleSubmit (genRejecting (Thrown.error "API key not valid"))
        RecommendationPage.init).1 "N" "90").response
        = "An error occurred while fetching recommendations." :=
  ⟨rfl, rfl⟩

/-- Claim C9, amended. In the image flow `handleFileChange` with a file sets
`error` and `predictions` to null and leaves `loading` unchanged. In the
parameter flow `handleInputChange` leaves `response` and `isLoading` unchanged;
the earlier text is dropped by the next `handleSubmit`, whose final state does
not depend on it, and by `handleClear`. -/
theorem edit_effects (store : URLStore) (s : Home.State) (file : File) (rest : List File)
    (api : GenAI) (p : RecommendationPage.State) (name value : String) :
    (Home.handleFileChange store s (file :: rest)).2.error = none ∧
    (Home.handleFileChange store s (file :: rest)).2.predictions = JSValue.null ∧
    (Home.handleFileChange store s (file :: rest)).2.loading = s.loading ∧
    (RecommendationPage.handleInputChange p name value).response = p.response ∧
    (RecommendationPage.handleInputChange p name value).isLoading = p.isLoading ∧
    (RecommendationPage.handleSubmit api p).1
      = (RecommendationPage.handleSubmit api { p with response := "" }).1 ∧
    (RecommendationPage.handleClear p).response = "" := by
  refine ⟨rfl, rfl, rfl, rfl, rfl, ?_, rfl⟩
  rw [RecommendationPage.handleSubmit_state, RecommendationPage.handleSubmit_state]

/-- Reading back the property that `set` has just written. -/
theorem RecommendationPage.get_set_self (inputs : RecommendationPage.Inputs)
    (name value : String) :
    RecommendationPage.get (RecommendationPage.set inputs name value) name = some value := by
  induction inputs with
  | nil => simp [RecommendationPage.set, RecommendationPage.get]
  | cons kv rest ih =>
    obtain ⟨k, v⟩ := kv
    by_cases hk : k = name
    · simp [RecommendationPage.set, RecommendationPage.get, hk]
    · simp [RecommendationPage.set, RecommendationPage.get, hk, ih]

/-- Writing one property with `set` leaves every other property as it was. -/
theorem RecommendationPage.get_set_other (inputs : RecommendationPage.Inputs)
    (name value key : String) (h : key ≠ name) :
    RecommendationPage.get (RecommendationPage.set inputs name value) key
      = RecommendationPage.get inputs key := by
  induction inputs with
  | nil => simp [RecommendationPage.set, RecommendationPage.get, Ne.symm h]
  | cons kv rest ih =>
    obtain ⟨k, v⟩ := kv
    by_cases hk : k = name
    · subst hk
      simp [RecommendationPage.set, RecommendationPage.get, Ne.symm h]
    · by_cases hkey : k = key
      · subst hkey
        simp [RecommendationPage.set, RecommendationPage.get, hk]
      · simp [RecommendationPage.set, RecommendationPage.get, hk, hkey, ih]

/-- Claim C10. For every state, name and value, `handleInputChange` stores the
value verbatim under the name and leaves every other property of `inputs`
unchanged; when the name is none of the seven field names, all seven fields
keep their values; `response` and `isLoading` are unchanged. -/
theorem RecommendationPage.update_field (s : RecommendationPage.State) (name value : String) :
    RecommendationPage.get (RecommendationPage.handleInputChange s name value).inputs name
      = some value ∧
    (∀ key, key ≠ name →
      RecommendationPage.get (RecommendationPage.handleInputChange s name value).inputs key
        = RecommendationPage.get s.inputs key) ∧
    (name ∉ RecommendationPage.fieldNames → ∀ key ∈ RecommendationPage.fieldNames,
      RecommendationPage.get (RecommendationPage.handleInputChange s name value).inputs key
        = RecommendationPage.get s.inputs key) ∧
    (RecommendationPage.handleInputChange s name value).response = s.response ∧
    (RecommendationPage.handleInputChange s name value).isLoading = s.isLoading := by
  refine ⟨RecommendationPage.get_set_self s.inputs name value,
    fun key h => RecommendationPage.get_set_other s.inputs name value key h,
    fun hname key hkey => ?_, rfl, rfl⟩
  apply RecommendationPage.get_set_other
  intro h
  exact hname (h ▸ hkey)

/-- Witness of `RecommendationPage.update_field`: writing an unknown name on
the initial page stores it and leaves field `N` and `rainfall` empty. -/
theorem RecommendationPage.update_field_witness :
    RecommendationPage.get
      (RecommendationPage.handleInputChange RecommendationPage.init "soil" "clay").inputs "soil"
        = some "clay" ∧
    RecommendationPage.get
      (RecommendationPage.handleInputChange RecommendationPage.init "soil" "clay").inputs "N"
        = some "" ∧
    RecommendationPage.get
      (RecommendationPage.handleInputChange RecommendationPage.init "soil" "clay").inputs
        "rainfall" = some "" :=
  have h := RecommendationPage.update_field RecommendationPage.init "soil" "clay"
  ⟨h.1, (h.2.1 "N" (by decide)).trans rfl,
    (h.2.2.1 (by decide) "rainfall" (by decide)).trans rfl⟩

end CropManagement
